import Mathlib

/-!
Verification development for the RiskAssessor repository.

The Python sources under `risk_assessor/` are shallowly embedded:
pure functions become Lean functions over `ℚ` (Python floats are modelled
as exact rationals), catalogs become lists of records, and code paths that
can raise an uncaught Python exception return `Except PyError`.
Timestamps are modelled by the *outcome* of
`datetime.fromisoformat(s.replace('Z', '+00:00'))`: the sources only ever
observe an `incident_date` string through that call, so a date field is
represented as `ParsedDate` — parse failure, a naive datetime with its
epoch-second value, or a timezone-aware datetime with its epoch-second
value (the process-local timezone is taken to be UTC, so `datetime.now()`
is the naive datetime with epoch value `now`).
-/

namespace RiskAssessor

/-- `starts_with_chars n h` is Python `h.startswith(n)` on character lists. -/
def starts_with_chars : List Char → List Char → Bool
  | [], _ => true
  | _ :: _, [] => false
  | a :: as, b :: bs => a == b && starts_with_chars as bs

/-- `contains_chars n h` is Python substring containment `n in h`. -/
def contains_chars : List Char → List Char → Bool
  | n, [] => n.isEmpty
  | n, h :: hs => starts_with_chars n (h :: hs) || contains_chars n hs

/-- Python `a in b` on strings. -/
def substr_of (a b : String) : Bool :=
  contains_chars a.toList b.toList

/-- Python `s.lower()`. -/
def lower (s : String) : String :=
  String.mk (s.toList.map Char.toLower)

/-- Uncaught Python exceptions that the embedded code can raise. -/
inductive PyError where
  | typeError : PyError
  | zeroDivisionError : PyError
deriving DecidableEq, Repr

/-- Outcome of `datetime.fromisoformat(s.replace('Z', '+00:00'))` on a stored
date string: the parse raises `ValueError` (`invalid`), or yields a naive
datetime (no timezone offset in the string) with the given epoch-second
value, or yields a timezone-aware datetime (the string carried an offset,
e.g. a trailing `Z` rewritten to `+00:00`) with the given epoch-second
value. -/
inductive ParsedDate where
  | invalid : ParsedDate
  | naive : ℤ → ParsedDate
  | aware : ℤ → ParsedDate
deriving DecidableEq, Repr

/-- Whether the parsed datetime is timezone-aware. -/
def ParsedDate.isAware : ParsedDate → Bool
  | .aware _ => true
  | _ => false

end RiskAssessor

namespace RiskAssessor.ComplexityAnalyzer

/-- `FILE_TYPE_WEIGHTS` from `analyzers/complexity.py`. -/
def FILE_TYPE_WEIGHTS : List (String × ℚ) :=
  [(".py", 1), (".js", 1), (".ts", 1), (".java", 1), (".go", 1), (".rb", 1),
   (".php", 1), (".c", 6/5), (".cpp", 6/5), (".h", 6/5), (".sql", 3/2),
   (".yaml", 13/10), (".yml", 13/10), (".json", 11/10), (".xml", 11/10),
   (".sh", 7/5), (".bash", 7/5), (".dockerfile", 3/2), ("dockerfile", 3/2),
   (".md", 1/2), (".txt", 3/10), (".rst", 1/2)]

/-- `FILE_TYPE_WEIGHTS.get(ext, 1.0)`. -/
def file_type_weight (ext : String) : ℚ :=
  ((FILE_TYPE_WEIGHTS.find? (fun p => p.1 == ext)).map Prod.snd).getD 1

/-- The keywords of `CRITICAL_PATTERNS`: each pattern is `.*kw.*` searched
case-insensitively, i.e. substring containment of `kw` in the lowercased
path. -/
def CRITICAL_KEYWORDS : List String :=
  ["config", "settings", "env", "deploy", "migration", "schema",
   "security", "auth", "database", "db", "api"]

/-- One file is critical iff some critical pattern matches its lowercase form. -/
def is_critical_file (file : String) : Bool :=
  CRITICAL_KEYWORDS.any (fun kw => substr_of kw (lower file))

/-- `_identify_critical_files`. -/
def identify_critical_files (files : List String) : List String :=
  files.filter is_critical_file

/-- Split a character list at `/` separators (Python `str.split('/')`). -/
def split_slash : List Char → List (List Char)
  | [] => [[]]
  | c :: rest =>
    match split_slash rest with
    | [] => [[c]]
    | h :: t => if c == '/' then [] :: h :: t else (c :: h) :: t

/-- `Path(file).name`: the last nonempty `/`-separated component. -/
def path_name_chars (file : String) : List Char :=
  (((split_slash file.toList).filter (fun s => !s.isEmpty)).getLast?).getD []

/-- `Path(file).suffix`: from the last dot of the name (`name.rfind('.')`),
provided that dot is neither the first nor the last character of the name. -/
def path_suffix_chars (file : String) : List Char :=
  let name := path_name_chars file
  match (name.reverse).findIdx? (fun c => c == '.') with
  | none => []
  | some j =>
      let i := name.length - 1 - j
      if 0 < i ∧ i + 1 < name.length then name.drop i else []

/-- The file-type token used by `_analyze_file_types`: the lowercased suffix,
or `dockerfile` / `no_extension` for extension-less names. -/
def ext_token (file : String) : String :=
  let ext := (path_suffix_chars file).map Char.toLower
  if ext ≠ [] then String.mk ext
  else if contains_chars "dockerfile".toList ((path_name_chars file).map Char.toLower)
  then "dockerfile"
  else "no_extension"

/-- Insert one occurrence of key `k` into an insertion-ordered count map. -/
def add_count (m : List (String × ℕ)) (k : String) : List (String × ℕ) :=
  if m.any (fun p => p.1 == k) then
    m.map (fun p => if p.1 == k then (p.1, p.2 + 1) else p)
  else m ++ [(k, 1)]

/-- `_analyze_file_types`: dict from file-type token to count, in first-seen
order. -/
def analyze_file_types (files : List String) : List (String × ℕ) :=
  files.foldl (fun m f => add_count m (ext_token f)) []

/-- `volume_score = min(1.0, files/50 + total_changes/1000)`. -/
def volume_score (files_changed total_changes : ℕ) : ℚ :=
  min 1 ((files_changed : ℚ) / 50 + (total_changes : ℚ) / 1000)

/-- `type_score`: weighted average of file-type weights, normalized by 1.5
and capped at 1.  The loop body divides by `total_files`, which is positive
whenever the dict is nonempty. -/
def type_score (file_types : List (String × ℕ)) : ℚ :=
  let total_files : ℕ := (file_types.map Prod.snd).sum
  let s : ℚ :=
    (file_types.map
      (fun p => ((p.2 : ℚ) / (total_files : ℚ)) * file_type_weight p.1)).sum
  min 1 (s / (3/2))

/-- `critical_score = min(1.0, critical_files/10)`. -/
def critical_score (critical_files : ℕ) : ℚ :=
  min 1 ((critical_files : ℚ) / 10)

/-- `commit_score`: 0.3 / 0.8 / 0.5 split on changes-per-commit when
`commits > 0`, else 0 (the guard that avoids dividing by zero commits). -/
def commit_score (total_changes commits : ℕ) : ℚ :=
  if commits > 0 then
    let changes_per_commit : ℚ := (total_changes : ℚ) / (commits : ℚ)
    if changes_per_commit < 10 then 3/10
    else if changes_per_commit > 200 then 4/5
    else 1/2
  else 0

/-- `_calculate_complexity_score`. -/
def calculate_complexity_score (files_changed total_changes commits : ℕ)
    (file_types : List (String × ℕ)) (critical_files : ℕ) : ℚ :=
  min 1 (volume_score files_changed total_changes * (3/10)
    + type_score file_types * (1/5)
    + critical_score critical_files * (3/10)
    + commit_score total_changes commits * (1/5))

/-- `_get_risk_level`. -/
def get_risk_level (score : ℚ) : String :=
  if score < 3/10 then "low"
  else if score < 3/5 then "medium"
  else if score < 4/5 then "high"
  else "critical"

/-- Result record of `ComplexityAnalyzer.analyze_changes`. -/
structure ComplexityAnalysis where
  files_changed : ℕ
  additions : ℕ
  deletions : ℕ
  total_changes : ℕ
  commits : ℕ
  file_types : List (String × ℕ)
  critical_files : List String
  complexity_score : ℚ
  risk_level : String
deriving DecidableEq, Repr

/-- `ComplexityAnalyzer.analyze_changes`. -/
def analyze_changes (files : List String) (additions deletions commits : ℕ) :
    ComplexityAnalysis :=
  let total_changes := additions + deletions
  let file_types := analyze_file_types files
  let critical_files := identify_critical_files files
  let score := calculate_complexity_score files.length total_changes commits
    file_types critical_files.length
  { files_changed := files.length
    additions := additions
    deletions := deletions
    total_changes := total_changes
    commits := commits
    file_types := file_types
    critical_files := critical_files
    complexity_score := score
    risk_level := get_risk_level score }

end RiskAssessor.ComplexityAnalyzer

namespace RiskAssessor.RiskEngine

/-- The contract-API tier classification of `_generate_risk_contract`
(`core/risk_engine.py`, lines 574-581). -/
def contract_risk_level (overall_score : ℚ) : String :=
  if overall_score < 33/100 then "LOW"
  else if overall_score < 66/100 then "MEDIUM"
  else "HIGH"

end RiskAssessor.RiskEngine

namespace RiskAssessor

open ComplexityAnalyzer RiskEngine

/-- C1: the contract API classifies the combined overall score with the fixed
three-level scheme: LOW exactly below 0.33, MEDIUM exactly on [0.33, 0.66),
HIGH exactly from 0.66 up; in particular 0.329999 is LOW, 0.33 is MEDIUM,
0.659999 is MEDIUM and 0.66 is HIGH. -/
theorem C1_contract_classification :
    ∀ overall : ℚ,
      (contract_risk_level overall = "LOW" ↔ overall < 33/100) ∧
      (contract_risk_level overall = "MEDIUM" ↔ 33/100 ≤ overall ∧ overall < 66/100) ∧
      (contract_risk_level overall = "HIGH" ↔ 66/100 ≤ overall) ∧
      contract_risk_level (329999/1000000) = "LOW" ∧
      contract_risk_level (33/100) = "MEDIUM" ∧
      contract_risk_level (659999/1000000) = "MEDIUM" ∧
      contract_risk_level (66/100) = "HIGH" := by
  intro overall
  refine ⟨?_, ?_, ?_, by norm_num [contract_risk_level],
    by norm_num [contract_risk_level], by norm_num [contract_risk_level],
    by norm_num [contract_risk_level]⟩ <;>
  · unfold contract_risk_level
    split_ifs with h1 h2 <;> simp_all <;> linarith

/-- C5 as stated is false: an empty `files_changed` list with nonzero
additions and one commit yields complexity score 0.46 and risk level
"medium", not score 0 and "low". -/
theorem C5_counterexample :
    (analyze_changes [] 1000 0 1).complexity_score = 23/50 ∧
    (analyze_changes [] 1000 0 1).risk_level = "medium" ∧
    (analyze_changes [] 1000 0 1).complexity_score ≠ 0 ∧
    (analyze_changes [] 1000 0 1).risk_level ≠ "low" := by
  have h1 : (analyze_changes [] 1000 0 1).complexity_score = 23/50 := by
    norm_num [analyze_changes, calculate_complexity_score, volume_score,
      type_score, critical_score, commit_score, analyze_file_types,
      identify_critical_files]
  have h2 : (analyze_changes [] 1000 0 1).risk_level = "medium" := by
    norm_num [analyze_changes, calculate_complexity_score, volume_score,
      type_score, critical_score, commit_score, analyze_file_types,
      identify_critical_files, get_risk_level]
  exact ⟨h1, h2, by rw [h1]; norm_num, by rw [h2]; decide⟩

/-- C5 amended: with an empty file list *and* zero additions, deletions and
commits, `analyze_changes` returns complexity score 0 and risk level "low";
and for every additions/deletions/commits count the analysis of an empty
file list completes with a score in [0, 1] (the guards on zero files and
zero commits prevent any division by zero). -/
theorem C5_empty_input_analysis :
    (analyze_changes [] 0 0 0).complexity_score = 0 ∧
    (analyze_changes [] 0 0 0).risk_level = "low" ∧
    ∀ additions deletions commits : ℕ,
      0 ≤ (analyze_changes [] additions deletions commits).complexity_score ∧
      (analyze_changes [] additions deletions commits).complexity_score ≤ 1 := by
  refine ⟨by norm_num [analyze_changes, calculate_complexity_score, volume_score,
      type_score, critical_score, commit_score, analyze_file_types,
      identify_critical_files],
    by norm_num [analyze_changes, calculate_complexity_score, volume_score,
      type_score, critical_score, commit_score, analyze_file_types,
      identify_critical_files, get_risk_level], ?_⟩
  intro additions deletions commits
  have hvol : 0 ≤ volume_score 0 (additions + deletions) := by
    unfold volume_score
    have : (0:ℚ) ≤ (0:ℚ) / 50 + ((additions + deletions : ℕ) : ℚ) / 1000 := by
      positivity
    exact le_min (by norm_num) (by push_cast; push_cast at this; linarith)
  have hcommit : 0 ≤ commit_score (additions + deletions) commits := by
    simp only [commit_score]
    split_ifs <;> norm_num
  constructor
  · show 0 ≤ (analyze_changes [] additions deletions commits).complexity_score
    simp only [analyze_changes, calculate_complexity_score, analyze_file_types,
      identify_critical_files, List.foldl_nil, List.filter_nil, List.length_nil]
    refine le_min (by norm_num) ?_
    have htype : type_score [] = 0 := by
      norm_num [type_score]
    have hcrit : critical_score 0 = 0 := by
      norm_num [critical_score]
    rw [htype, hcrit]
    have := hvol
    nlinarith [hcommit, hvol]
  · show (analyze_changes [] additions deletions commits).complexity_score ≤ 1
    simp only [analyze_changes, calculate_complexity_score]
    exact min_le_left _ _

/-- C10: with zero commits the commit-fragmentation component is 0 (not one
of 0.3, 0.5, 0.8), so the complexity score of a zero-commit change is
`min 1 (0.3·volume + 0.2·type + 0.3·critical)`. -/
theorem C10_zero_commit_component :
    ∀ (files : List String) (additions deletions : ℕ),
      (analyze_changes files additions deletions 0).complexity_score =
        min 1 ((3/10) * volume_score files.length (additions + deletions)
          + (1/5) * type_score (analyze_file_types files)
          + (3/10) * critical_score (identify_critical_files files).length) ∧
      commit_score (additions + deletions) 0 = 0 ∧
      commit_score (additions + deletions) 0 ≠ 3/10 ∧
      commit_score (additions + deletions) 0 ≠ 1/2 ∧
      commit_score (additions + deletions) 0 ≠ 4/5 := by
  intro files additions deletions
  have hz : commit_score (additions + deletions) 0 = 0 := by
    unfold commit_score
    norm_num
  refine ⟨?_, hz, by rw [hz]; norm_num, by rw [hz]; norm_num, by rw [hz]; norm_num⟩
  show calculate_complexity_score files.length (additions + deletions) 0
      (analyze_file_types files) (identify_critical_files files).length = _
  unfold calculate_complexity_score
  rw [hz]
  ring_nf

end RiskAssessor

namespace RiskAssessor.FeedbackCatalog

/-- `FeedbackEntry` from `core/feedback.py`, field for field; `incident_date`
is modelled by its parse outcome (see `ParsedDate`). -/
structure FeedbackEntry where
  id : String
  timestamp : String
  incident_date : RiskAssessor.ParsedDate
  changeset_id : Option String
  pr_number : Option ℤ
  commit_sha : Option String
  severity : String
  incident_type : String
  description : String
  root_cause : String
  affected_files : List String
  missed_indicators : List String
  original_risk_score : Option ℚ
  original_risk_level : Option String
  resolution : String
  time_to_resolve_hours : Option ℚ
  lessons_learned : List String
deriving DecidableEq, Repr

open RiskAssessor

/-- `find_by_id`: first entry with the given id. -/
def find_by_id (entries : List FeedbackEntry) (entry_id : String) :
    Option FeedbackEntry :=
  entries.find? (fun e => e.id == entry_id)

/-- `add_feedback`: replace-by-id (remove the first entry equal to the found
one, then append). -/
def add_feedback (entries : List FeedbackEntry) (entry : FeedbackEntry) :
    List FeedbackEntry :=
  match find_by_id entries entry.id with
  | some existing => (entries.erase existing) ++ [entry]
  | none => entries ++ [entry]

/-- One query file matches an entry iff some affected file contains it or is
contained in it (bidirectional substring match). -/
def matches_files (files : List String) (e : FeedbackEntry) : Bool :=
  files.any (fun file =>
    e.affected_files.any (fun affected =>
      substr_of file affected || substr_of affected file))

/-- `search_by_files`. -/
def search_by_files (entries : List FeedbackEntry) (files : List String) :
    List FeedbackEntry :=
  entries.filter (matches_files files)

/-- `get_recent_feedback`: keep entries whose `incident_date` parses and whose
timestamp exceeds `now - days·86400`; parse failures are skipped, never
raised (`except (ValueError, AttributeError): pass`). -/
def get_recent_feedback (entries : List FeedbackEntry) (days : ℤ) (now : ℤ) :
    List FeedbackEntry :=
  entries.filter (fun e =>
    match e.incident_date with
    | ParsedDate.invalid => false
    | ParsedDate.naive t => decide (t > now - days * 86400)
    | ParsedDate.aware t => decide (t > now - days * 86400))

/-- `severity_weights` of `calculate_feedback_risk_score`. -/
def severity_weights : List (String × ℚ) :=
  [("critical", 1), ("high", 4/5), ("medium", 1/2), ("low", 3/10)]

/-- `severity_weights.get(severity.lower(), 0.5)`. -/
def severity_weight (severity : String) : ℚ :=
  ((severity_weights.find? (fun p => p.1 == lower severity)).map Prod.snd).getD (1/2)

/-- The weight one related entry contributes inside the scoring loop of
`calculate_feedback_risk_score`: starting from the severity weight, a
parse failure is caught (no recency decay); a naive datetime applies the
recency decay `max(0.5, 1 - days_ago/(recent_days*2))`, raising
`ZeroDivisionError` when `recent_days*2 == 0`; a timezone-aware datetime
makes `datetime.now() - incident_date` raise an uncaught `TypeError`
(naive minus aware). -/
def entry_weight (e : FeedbackEntry) (recent_days now : ℤ) : Except PyError ℚ :=
  let w := severity_weight e.severity
  match e.incident_date with
  | ParsedDate.invalid => Except.ok w
  | ParsedDate.aware _ => Except.error PyError.typeError
  | ParsedDate.naive t =>
      if recent_days * 2 = 0 then Except.error PyError.zeroDivisionError
      else
        let days_ago : ℤ := (now - t).fdiv 86400
        Except.ok (w * max (1/2) (1 - (days_ago : ℚ) / ((recent_days : ℚ) * 2)))

/-- The value of `entry_weight` when it does not raise. -/
def entry_weight_val (e : FeedbackEntry) (recent_days now : ℤ) : ℚ :=
  severity_weight e.severity *
    (match e.incident_date with
     | ParsedDate.naive t =>
         max (1/2) (1 - (((now - t).fdiv 86400 : ℤ) : ℚ) / ((recent_days : ℚ) * 2))
     | _ => 1)

/-- The recent matching entries considered by `calculate_feedback_risk_score`. -/
def related_feedback (entries : List FeedbackEntry) (files : List String)
    (recent_days now : ℤ) : List FeedbackEntry :=
  (get_recent_feedback entries recent_days now).filter (matches_files files)

/-- The `for entry in related_feedback` accumulation loop of
`calculate_feedback_risk_score`: add each entry weight to the running
total, propagating the first uncaught exception. -/
def total_weight_loop (l : List FeedbackEntry) (acc : ℚ) (recent_days now : ℤ) :
    Except PyError ℚ :=
  match l with
  | [] => Except.ok acc
  | e :: rest =>
      match entry_weight e recent_days now with
      | Except.error err => Except.error err
      | Except.ok w => total_weight_loop rest (acc + w) recent_days now

/-- `calculate_feedback_risk_score`. -/
def calculate_feedback_risk_score (entries : List FeedbackEntry)
    (files_changed : List String) (recent_days now : ℤ) : Except PyError ℚ :=
  if files_changed.isEmpty then Except.ok 0
  else
    let related := related_feedback entries files_changed recent_days now
    if related.isEmpty then Except.ok 0
    else
      match total_weight_loop related 0 recent_days now with
      | Except.error err => Except.error err
      | Except.ok total => Except.ok (min 1 (total / 3))

end RiskAssessor.FeedbackCatalog

namespace RiskAssessor.FeedbackCatalog

open RiskAssessor

/-- The severity weight is always positive (every table value and the
default are positive). -/
lemma severity_weight_pos (s : String) : 0 < severity_weight s := by
  unfold severity_weight
  cases h : severity_weights.find? (fun p => p.1 == lower s) with
  | none => norm_num
  | some p =>
      have hp : p ∈ severity_weights := List.mem_of_find?_eq_some h
      simp only [severity_weights, List.mem_cons, List.not_mem_nil, or_false] at hp
      rcases hp with h1 | h1 | h1 | h1 <;> subst h1 <;> norm_num

/-- The loop weight of a non-aware entry is positive: the recency factor is
at least 1/2 and parse failures contribute the bare severity weight. -/
lemma entry_weight_val_pos (e : FeedbackEntry) (d now : ℤ) :
    0 < entry_weight_val e d now := by
  unfold entry_weight_val
  refine mul_pos (severity_weight_pos _) ?_
  cases e.incident_date with
  | invalid => norm_num
  | aware t => norm_num
  | naive t =>
      calc (0:ℚ) < 1/2 := by norm_num
        _ ≤ _ := le_max_left _ _

/-- A non-aware entry contributes its pure weight value. -/
lemma entry_weight_eq_ok (e : FeedbackEntry) (d now : ℤ) (hd : d * 2 ≠ 0)
    (he : e.incident_date.isAware = false) :
    entry_weight e d now = Except.ok (entry_weight_val e d now) := by
  unfold entry_weight entry_weight_val
  cases hdte : e.incident_date with
  | invalid => simp [mul_one]
  | naive t' => simp [hd]
  | aware t' => rw [hdte] at he; simp [ParsedDate.isAware] at he

/-- On a list of non-aware entries the scoring loop never raises and returns
the running total plus the sum of the individual weights. -/
lemma total_weight_loop_ok (l : List FeedbackEntry) (d now : ℤ)
    (hd : d * 2 ≠ 0)
    (h : ∀ e ∈ l, e.incident_date.isAware = false) (init : ℚ) :
    total_weight_loop l init d now =
      Except.ok (init + (l.map (fun e => entry_weight_val e d now)).sum) := by
  induction l generalizing init with
  | nil => simp [total_weight_loop]
  | cons e t ih =>
      have he : e.incident_date.isAware = false := h e (by simp)
      have ht : ∀ e' ∈ t, e'.incident_date.isAware = false := by
        intro e' he'
        exact h e' (by simp [he'])
      rw [total_weight_loop, entry_weight_eq_ok e d now hd he]
      dsimp only
      rw [ih ht]
      simp only [List.map_cons, List.sum_cons]
      ring_nf

/-- Characterization of `calculate_feedback_risk_score` when no considered
entry has a timezone-aware incident date: the call returns
`min 1 (Σ weights / 3)` over the recent matching entries (0 when the query
is empty or nothing matches), a value in [0, 1]. -/
lemma feedback_score_spec (entries : List FeedbackEntry) (files : List String)
    (d now : ℤ) (hd : d ≠ 0)
    (hok : ∀ e ∈ related_feedback entries files d now,
      e.incident_date.isAware = false) :
    ∃ score : ℚ,
      calculate_feedback_risk_score entries files d now = Except.ok score ∧
      score = (if files = [] ∨ related_feedback entries files d now = [] then 0
        else min 1 (((related_feedback entries files d now).map
          (fun e => entry_weight_val e d now)).sum / 3)) ∧
      0 ≤ score ∧ score ≤ 1 := by
  by_cases hf : files = []
  · refine ⟨0, ?_, by simp [hf], le_refl 0, by norm_num⟩
    simp [calculate_feedback_risk_score, hf]
  · by_cases hr : related_feedback entries files d now = []
    · refine ⟨0, ?_, by simp [hr], le_refl 0, by norm_num⟩
      simp only [calculate_feedback_risk_score]
      rw [if_neg (by simpa [List.isEmpty_iff] using hf)]
      simp [hr]
    · have hd2 : d * 2 ≠ 0 := mul_ne_zero hd two_ne_zero
      have hsum0 : 0 ≤ ((related_feedback entries files d now).map
          (fun e => entry_weight_val e d now)).sum := by
        refine List.sum_nonneg ?_
        intro x hx
        simp only [List.mem_map] at hx
        obtain ⟨e, _, rfl⟩ := hx
        exact (entry_weight_val_pos e d now).le
      refine ⟨min 1 (((related_feedback entries files d now).map
        (fun e => entry_weight_val e d now)).sum / 3), ?_, ?_, ?_, min_le_left _ _⟩
      · simp only [calculate_feedback_risk_score]
        rw [if_neg (by simpa [List.isEmpty_iff] using hf),
          if_neg (by simpa [List.isEmpty_iff] using hr)]
        rw [total_weight_loop_ok _ _ _ hd2 hok 0]
        simp
      · simp [hf, hr]
      · exact le_min (by norm_num) (by positivity)

end RiskAssessor.FeedbackCatalog

namespace RiskAssessor.FeedbackCatalog

open RiskAssessor

/-- A concrete feedback entry used by witnesses and counterexamples. -/
def sample_entry (id : String) (severity : String) (d : ParsedDate)
    (affected : List String) : FeedbackEntry :=
  { id := id, timestamp := "2025-11-10T10:00:00", incident_date := d,
    changeset_id := none, pr_number := none, commit_sha := none,
    severity := severity, incident_type := "outage", description := "d",
    root_cause := "r", affected_files := affected, missed_indicators := [],
    original_risk_score := none, original_risk_level := none,
    resolution := "fixed", time_to_resolve_hours := none, lessons_learned := [] }

end RiskAssessor.FeedbackCatalog

namespace RiskAssessor

open FeedbackCatalog

/-- C2 (amended): provided no recent matching entry has a timezone-aware
incident date (otherwise the scoring loop raises, see the counterexample),
`calculate_feedback_risk_score` returns 0 when the query is empty or no
recent entry matches, and otherwise `min 1 (Σ severity·recency weights / 3)`
with weights critical 1.0 / high 0.8 / medium 0.5 / low 0.3 / default 0.5
and recency factor `max(0.5, 1 − days_ago/(2·recent_days))`; the result
lies in [0, 1]. -/
theorem C2_feedback_score_formula :
    ∀ (entries : List FeedbackEntry) (files : List String) (d now : ℤ),
      d ≠ 0 →
      (∀ e ∈ related_feedback entries files d now,
        e.incident_date.isAware = false) →
      ∃ score : ℚ,
        calculate_feedback_risk_score entries files d now = Except.ok score ∧
        score = (if files = [] ∨ related_feedback entries files d now = [] then 0
          else min 1 (((related_feedback entries files d now).map
            (fun e => entry_weight_val e d now)).sum / 3)) ∧
        0 ≤ score ∧ score ≤ 1 :=
  fun entries files d now hd hok => feedback_score_spec entries files d now hd hok

/-- Witness for C2: a concrete catalog with one recent naive-dated matching
critical entry satisfies the hypotheses and yields a score. -/
theorem C2_feedback_score_formula_witness :
    ∃ score : ℚ,
      calculate_feedback_risk_score
        [sample_entry "f1" "critical" (ParsedDate.naive 1700000000) ["src/api.py"]]
        ["src/api.py"] 180 1700000000 = Except.ok score ∧
      score = (if (["src/api.py"] : List String) = [] ∨
          related_feedback
            [sample_entry "f1" "critical" (ParsedDate.naive 1700000000) ["src/api.py"]]
            ["src/api.py"] 180 1700000000 = [] then 0
        else min 1 (((related_feedback
            [sample_entry "f1" "critical" (ParsedDate.naive 1700000000) ["src/api.py"]]
            ["src/api.py"] 180 1700000000).map
          (fun e => entry_weight_val e 180 1700000000)).sum / 3)) ∧
      0 ≤ score ∧ score ≤ 1 :=
  C2_feedback_score_formula
    [sample_entry "f1" "critical" (ParsedDate.naive 1700000000) ["src/api.py"]]
    ["src/api.py"] 180 1700000000 (by decide) (by decide)

/-- C2 as stated is false: when a recent matching entry's incident date
parses as timezone-aware (e.g. a trailing `Z`), the function raises an
uncaught `TypeError` (`datetime.now() - incident_date` mixes naive and
aware datetimes) instead of returning a value. -/
theorem C2_counterexample :
    calculate_feedback_risk_score
      [sample_entry "fb-1" "critical" (ParsedDate.aware 1699999000) ["src/api.py"]]
      ["src/api.py"] 180 1700000000 = Except.error PyError.typeError ∧
    ∀ q : ℚ, calculate_feedback_risk_score
      [sample_entry "fb-1" "critical" (ParsedDate.aware 1699999000) ["src/api.py"]]
      ["src/api.py"] 180 1700000000 ≠ Except.ok q := by
  have h : calculate_feedback_risk_score
      [sample_entry "fb-1" "critical" (ParsedDate.aware 1699999000) ["src/api.py"]]
      ["src/api.py"] 180 1700000000 = Except.error PyError.typeError := rfl
  exact ⟨h, fun q hq => Except.noConfusion ((h.symm.trans hq))⟩

/-- C4: the claim that `calculate_feedback_risk_score` never raises is
contradicted by the code: an entry whose `incident_date` carries a timezone
suffix (trailing `Z`) passes `get_recent_feedback` (no raise there), but the
scoring loop's `datetime.now() - incident_date` raises an uncaught
`TypeError` — only `(ValueError, AttributeError)` are caught. -/
theorem C4_aware_incident_date_raises :
    calculate_feedback_risk_score
      [sample_entry "fb-z" "critical" (ParsedDate.aware 1733000000)
        ["src/database/connection.py"]]
      ["src/database/connection.py"] 180 1733001000
      = Except.error PyError.typeError ∧
    get_recent_feedback
      [sample_entry "fb-z" "critical" (ParsedDate.aware 1733000000)
        ["src/database/connection.py"]]
      180 1733001000 =
      [sample_entry "fb-z" "critical" (ParsedDate.aware 1733000000)
        ["src/database/connection.py"]] :=
  ⟨rfl, rfl⟩

end RiskAssessor

namespace RiskAssessor

open FeedbackCatalog

/-- C6 (amended): the score of an empty query is 0 for every catalog state;
and adding (under a fresh id) a recent, naive-dated feedback entry matching
a nonempty query never decreases the score, increases it strictly whenever
the pre-add score is below the 1.0 cap, and the score never exceeds 1. -/
theorem C6_feedback_monotonicity :
    (∀ (entries : List FeedbackEntry) (d now : ℤ),
      calculate_feedback_risk_score entries [] d now = Except.ok 0) ∧
    (∀ (entries : List FeedbackEntry) (files : List String) (e : FeedbackEntry)
      (d now t : ℤ) (s : ℚ),
      files ≠ [] → d ≠ 0 →
      find_by_id entries e.id = none →
      matches_files files e = true →
      e.incident_date = ParsedDate.naive t →
      t > now - d * 86400 →
      (∀ e' ∈ related_feedback entries files d now,
        e'.incident_date.isAware = false) →
      calculate_feedback_risk_score entries files d now = Except.ok s →
      ∃ s' : ℚ,
        calculate_feedback_risk_score (add_feedback entries e) files d now
          = Except.ok s' ∧
        s ≤ s' ∧ s' ≤ 1 ∧ (s < 1 → s < s')) := by
  constructor
  · intro entries d now
    simp [calculate_feedback_risk_score]
  · intro entries files e d now t s hf hd hfresh hmatch hdate hwin hok hcalc
    have hadd : add_feedback entries e = entries ++ [e] := by
      simp [add_feedback, hfresh]
    have hrecent : get_recent_feedback (entries ++ [e]) d now
        = get_recent_feedback entries d now ++ [e] := by
      unfold get_recent_feedback
      rw [List.filter_append]
      congr 1
      simp [List.filter_cons, hdate, hwin]
    have hrel : related_feedback (entries ++ [e]) files d now
        = related_feedback entries files d now ++ [e] := by
      unfold related_feedback
      rw [hrecent, List.filter_append]
      congr 1
      simp [List.filter_cons, hmatch]
    have hok2 : ∀ e' ∈ related_feedback (entries ++ [e]) files d now,
        e'.incident_date.isAware = false := by
      rw [hrel]
      intro e' he'
      rcases List.mem_append.mp he' with h | h
      · exact hok e' h
      · simp only [List.mem_singleton] at h
        subst h
        rw [hdate]
        rfl
    obtain ⟨s1, hc1, hs1, _, _⟩ := feedback_score_spec entries files d now hd hok
    obtain ⟨s2, hc2, hs2, hs2nn, hs2le⟩ :=
      feedback_score_spec (entries ++ [e]) files d now hd hok2
    have hss : s = s1 := by
      have h := hcalc.symm.trans hc1
      exact (Except.ok.injEq _ _).mp h
    set T := ((related_feedback entries files d now).map
      (fun e => entry_weight_val e d now)).sum with hT
    set w := entry_weight_val e d now with hw
    have hwpos : 0 < w := entry_weight_val_pos e d now
    have hTnn : 0 ≤ T := by
      rw [hT]
      refine List.sum_nonneg ?_
      intro x hx
      simp only [List.mem_map] at hx
      obtain ⟨e', _, rfl⟩ := hx
      exact (entry_weight_val_pos e' d now).le
    have hs2' : s2 = min 1 ((T + w) / 3) := by
      rw [hs2, hrel]
      rw [if_neg (by simp [hf])]
      simp only [List.map_append, List.sum_append, List.map_cons, List.map_nil,
        List.sum_cons, List.sum_nil, add_zero]
    have hs1' : s = min 1 (T / 3) := by
      rw [hss, hs1]
      by_cases hre : related_feedback entries files d now = []
      · rw [if_pos (Or.inr hre)]
        rw [hre] at hT
        simp only [List.map_nil, List.sum_nil] at hT
        rw [hT]
        norm_num
      · rw [if_neg (by simp [hf, hre])]
    refine ⟨s2, by rw [hadd]; exact hc2, ?_, hs2le, ?_⟩
    · rw [hs1', hs2']
      exact min_le_min (le_refl 1) (by linarith)
    · intro hslt
      rw [hs1'] at hslt ⊢
      rw [hs2']
      have hT3 : T / 3 < 1 := by
        rcases min_lt_iff.mp hslt with h | h
        · linarith
        · exact h
      rw [min_eq_right hT3.le]
      by_cases hcap : (T + w) / 3 < 1
      · rw [min_eq_right hcap.le]
        linarith
      · push_neg at hcap
        rw [min_eq_left hcap]
        linarith

/-- Witness for C6: starting from an empty catalog, adding one matching
critical entry yields a defined score that is strictly positive. -/
theorem C6_feedback_monotonicity_witness :
    calculate_feedback_risk_score [] ([] : List String) 180 0 = Except.ok 0 ∧
    ∃ s' : ℚ,
      calculate_feedback_risk_score
        (add_feedback []
          (sample_entry "fb-1" "critical" (ParsedDate.naive 1700000000) ["src/api.py"]))
        ["src/api.py"] 180 1700000000 = Except.ok s' ∧
      (0:ℚ) ≤ s' ∧ s' ≤ 1 ∧ ((0:ℚ) < 1 → (0:ℚ) < s') :=
  ⟨C6_feedback_monotonicity.1 [] 180 0,
    C6_feedback_monotonicity.2 [] ["src/api.py"]
      (sample_entry "fb-1" "critical" (ParsedDate.naive 1700000000) ["src/api.py"])
      180 1700000000 1700000000 0 (by decide) (by decide) (by decide) (by decide)
      rfl (by decide) (by decide) rfl⟩

end RiskAssessor

namespace RiskAssessor

open FeedbackCatalog

/-- C6 as stated is false at saturation: with three recent matching critical
entries the score is already capped at 1.0, and adding a fourth matching
recent critical entry leaves it at 1.0 — no strict increase. -/
theorem C6_counterexample :
    calculate_feedback_risk_score
      [sample_entry "f1" "critical" (ParsedDate.naive 1700000000) ["src/api.py"],
       sample_entry "f2" "critical" (ParsedDate.naive 1700000000) ["src/api.py"],
       sample_entry "f3" "critical" (ParsedDate.naive 1700000000) ["src/api.py"]]
      ["src/api.py"] 180 1700000000 = Except.ok 1 ∧
    calculate_feedback_risk_score
      (add_feedback
        [sample_entry "f1" "critical" (ParsedDate.naive 1700000000) ["src/api.py"],
         sample_entry "f2" "critical" (ParsedDate.naive 1700000000) ["src/api.py"],
         sample_entry "f3" "critical" (ParsedDate.naive 1700000000) ["src/api.py"]]
        (sample_entry "f4" "critical" (ParsedDate.naive 1700000000) ["src/api.py"]))
      ["src/api.py"] 180 1700000000 = Except.ok 1 := by
  have hew : ∀ id : String, entry_weight
      (sample_entry id "critical" (ParsedDate.naive 1700000000) ["src/api.py"])
      180 1700000000 = Except.ok 1 := by
    intro id
    unfold entry_weight sample_entry
    dsimp only
    rw [if_neg (by decide)]
    rw [show severity_weight "critical" = 1 from by decide]
    rw [show ((1700000000:ℤ) - 1700000000).fdiv 86400 = 0 from by decide]
    rw [show ((((0:ℤ)):ℚ)) = 0 from by norm_num]
    rw [max_eq_right (by norm_num)]
    norm_num
  constructor
  · simp only [calculate_feedback_risk_score]
    rw [if_neg (by decide)]
    rw [show related_feedback
      [sample_entry "f1" "critical" (ParsedDate.naive 1700000000) ["src/api.py"],
       sample_entry "f2" "critical" (ParsedDate.naive 1700000000) ["src/api.py"],
       sample_entry "f3" "critical" (ParsedDate.naive 1700000000) ["src/api.py"]]
      ["src/api.py"] 180 1700000000 =
      [sample_entry "f1" "critical" (ParsedDate.naive 1700000000) ["src/api.py"],
       sample_entry "f2" "critical" (ParsedDate.naive 1700000000) ["src/api.py"],
       sample_entry "f3" "critical" (ParsedDate.naive 1700000000) ["src/api.py"]]
      from by decide]
    rw [if_neg (by decide)]
    simp only [total_weight_loop, hew]
    rw [show (0:ℚ) + 1 + 1 + 1 = 3 from by norm_num]
    rw [show min (1:ℚ) (3/3) = 1 from by norm_num]
  · rw [show add_feedback
      [sample_entry "f1" "critical" (ParsedDate.naive 1700000000) ["src/api.py"],
       sample_entry "f2" "critical" (ParsedDate.naive 1700000000) ["src/api.py"],
       sample_entry "f3" "critical" (ParsedDate.naive 1700000000) ["src/api.py"]]
      (sample_entry "f4" "critical" (ParsedDate.naive 1700000000) ["src/api.py"]) =
      [sample_entry "f1" "critical" (ParsedDate.naive 1700000000) ["src/api.py"],
       sample_entry "f2" "critical" (ParsedDate.naive 1700000000) ["src/api.py"],
       sample_entry "f3" "critical" (ParsedDate.naive 1700000000) ["src/api.py"],
       sample_entry "f4" "critical" (ParsedDate.naive 1700000000) ["src/api.py"]]
      from by decide]
    simp only [calculate_feedback_risk_score]
    rw [if_neg (by decide)]
    rw [show related_feedback
      [sample_entry "f1" "critical" (ParsedDate.naive 1700000000) ["src/api.py"],
       sample_entry "f2" "critical" (ParsedDate.naive 1700000000) ["src/api.py"],
       sample_entry "f3" "critical" (ParsedDate.naive 1700000000) ["src/api.py"],
       sample_entry "f4" "critical" (ParsedDate.naive 1700000000) ["src/api.py"]]
      ["src/api.py"] 180 1700000000 =
      [sample_entry "f1" "critical" (ParsedDate.naive 1700000000) ["src/api.py"],
       sample_entry "f2" "critical" (ParsedDate.naive 1700000000) ["src/api.py"],
       sample_entry "f3" "critical" (ParsedDate.naive 1700000000) ["src/api.py"],
       sample_entry "f4" "critical" (ParsedDate.naive 1700000000) ["src/api.py"]]
      from by decide]
    rw [if_neg (by decide)]
    simp only [total_weight_loop, hew]
    rw [show (0:ℚ) + 1 + 1 + 1 + 1 = 4 from by norm_num]
    rw [show min (1:ℚ) (4/3) = 1 from by norm_num]

end RiskAssessor

namespace RiskAssessor.IssueCatalog

/-- `CatalogedIssue` from `core/issue_catalog.py`, field for field. -/
structure CatalogedIssue where
  source : String
  identifier : String
  title : String
  status : String
  severity : Option String
  components : List String
  labels : List String
  created_at : String
  resolved_at : Option String
  description : String
  related_files : List String
  url : String
deriving DecidableEq, Repr

/-- `find_issue`: first issue matching both source and identifier. -/
def find_issue (issues : List CatalogedIssue) (source identifier : String) :
    Option CatalogedIssue :=
  issues.find? (fun i => i.source == source && i.identifier == identifier)

/-- `add_issue`: if an issue with the same key exists, `list.remove` the first
element equal to it, then append the new issue. -/
def add_issue (issues : List CatalogedIssue) (issue : CatalogedIssue) :
    List CatalogedIssue :=
  match find_issue issues issue.source issue.identifier with
  | some existing => (issues.erase existing) ++ [issue]
  | none => issues ++ [issue]

/-- The `(source, identifier)` uniqueness invariant of a catalog. -/
def key_unique (issues : List CatalogedIssue) : Prop :=
  issues.Pairwise (fun a b => ¬(a.source = b.source ∧ a.identifier = b.identifier))

/-- Erasing the found key match leaves no issue with that key (under the
uniqueness invariant). -/
lemma erase_no_key (s i : String) :
    ∀ (l : List CatalogedIssue) (ex : CatalogedIssue), key_unique l →
      find_issue l s i = some ex →
      ∀ y ∈ l.erase ex, (y.source == s && y.identifier == i) = false := by
  intro l
  induction l with
  | nil => intro ex _ h; simp [find_issue] at h
  | cons a t ih =>
      intro ex hU h y hy
      cases hpa : (a.source == s && a.identifier == i) with
      | true =>
          have hex : ex = a := by
            simp only [find_issue, List.find?, hpa] at h
            exact (Option.some.inj h).symm
          subst hex
          rw [List.erase_cons_head] at hy
          have hR := (List.pairwise_cons.mp hU).1 y hy
          simp only [Bool.and_eq_true, beq_iff_eq] at hpa
          cases hb : (y.source == s && y.identifier == i) with
          | false => rfl
          | true =>
              exfalso
              simp only [Bool.and_eq_true, beq_iff_eq] at hb
              exact hR ⟨hpa.1 ▸ hb.1 ▸ rfl, hpa.2 ▸ hb.2 ▸ rfl⟩
      | false =>
          have hfind : find_issue t s i = some ex := by
            simp only [find_issue, List.find?, hpa] at h
            exact h
          have hkey : (ex.source == s && ex.identifier == i) = true := by
            have := List.find?_some hfind
            simpa using this
          have hne : a ≠ ex := by
            intro hcon
            rw [hcon] at hpa
            rw [hpa] at hkey
            exact Bool.false_ne_true hkey
          rw [List.erase_cons_tail (by simp [hne])] at hy
          rcases List.mem_cons.mp hy with h1 | h1
          · subst h1
            exact hpa
          · exact ih ex (List.Pairwise.of_cons hU) hfind y h1

/-- When a key match is absent, no issue in the catalog carries the key. -/
lemma find_none_no_key (s i : String) (l : List CatalogedIssue)
    (h : find_issue l s i = none) :
    ∀ y ∈ l, (y.source == s && y.identifier == i) = false := by
  intro y hy
  have := List.find?_eq_none.mp h y hy
  rcases hb : (y.source == s && y.identifier == i) with _ | _
  · rfl
  · exact absurd hb this

/-- `find?` skips a prefix in which nothing satisfies the predicate. -/
lemma find_none_append {α : Type} {p : α → Bool} {l₁ l₂ : List α}
    (h : l₁.find? p = none) : (l₁ ++ l₂).find? p = l₂.find? p := by
  induction l₁ with
  | nil => simp
  | cons a t ih =>
      have hpa : p a = false := by
        have := List.find?_eq_none.mp h a (by simp)
        rcases hb : p a with _ | _
        · rfl
        · exact absurd hb this
      have ht : t.find? p = none := by
        rw [List.find?_cons_of_neg _ (by simp [hpa])] at h
        exact h
      rw [List.cons_append, List.find?_cons_of_neg _ (by simp [hpa])]
      exact ih ht

end RiskAssessor.IssueCatalog

namespace RiskAssessor.IssueCatalog

/-- A concrete cataloged issue used by witnesses. -/
def sample_issue (source identifier title : String) : CatalogedIssue :=
  { source := source, identifier := identifier, title := title,
    status := "open", severity := some "high", components := [], labels := [],
    created_at := "2025-01-01T00:00:00Z", resolved_at := none,
    description := "d", related_files := ["src/api.py"], url := "http://x" }

end RiskAssessor.IssueCatalog

namespace RiskAssessor

open IssueCatalog

/-- C7: `add_issue` preserves the `(source, identifier)` uniqueness
invariant, and adding an issue whose key equals that of an existing record
leaves the catalog size unchanged while `find_issue` afterwards returns
only the later record (last-write-wins replacement). -/
theorem C7_add_issue_replaces :
    ∀ (issues : List CatalogedIssue) (issue : CatalogedIssue),
      key_unique issues →
      key_unique (add_issue issues issue) ∧
      (∀ existing,
        find_issue issues issue.source issue.identifier = some existing →
        (add_issue issues issue).length = issues.length ∧
        find_issue (add_issue issues issue) issue.source issue.identifier
          = some issue) := by
  intro l n hU
  constructor
  · unfold add_issue
    cases hfind : find_issue l n.source n.identifier with
    | none =>
        apply List.pairwise_append.mpr
        refine ⟨hU, List.pairwise_singleton _ _, ?_⟩
        intro a ha b hb
        simp only [List.mem_singleton] at hb
        rw [hb]
        have hno := find_none_no_key n.source n.identifier l hfind a ha
        simp only [Bool.and_eq_false_iff, beq_eq_false_iff_ne] at hno
        intro hcon
        rcases hno with h1 | h1
        · exact h1 hcon.1
        · exact h1 hcon.2
    | some ex =>
        apply List.pairwise_append.mpr
        refine ⟨hU.sublist (List.erase_sublist _ _),
          List.pairwise_singleton _ _, ?_⟩
        intro a ha b hb
        simp only [List.mem_singleton] at hb
        rw [hb]
        have hno := erase_no_key n.source n.identifier l ex hU hfind a ha
        simp only [Bool.and_eq_false_iff, beq_eq_false_iff_ne] at hno
        intro hcon
        rcases hno with h1 | h1
        · exact h1 hcon.1
        · exact h1 hcon.2
  · intro ex hfind
    have hmem : ex ∈ l := List.mem_of_find?_eq_some hfind
    constructor
    · unfold add_issue
      rw [hfind, List.length_append, List.length_erase_of_mem hmem]
      have : 1 ≤ l.length := List.length_pos.mpr (List.ne_nil_of_mem hmem)
      simp only [List.length_singleton]
      omega
    · unfold add_issue
      rw [hfind]
      unfold find_issue
      rw [find_none_append (List.find?_eq_none.mpr (fun y hy => by
        rw [erase_no_key n.source n.identifier l ex hU hfind y hy]
        simp))]
      simp

/-- Witness for C7: a one-issue catalog, re-adding the same key with a new
title keeps size 1 and `find_issue` returns the new record. -/
theorem C7_add_issue_replaces_witness :
    key_unique (add_issue [sample_issue "github" "42" "old title"]
      (sample_issue "github" "42" "new title")) ∧
    (add_issue [sample_issue "github" "42" "old title"]
      (sample_issue "github" "42" "new title")).length = 1 ∧
    find_issue (add_issue [sample_issue "github" "42" "old title"]
        (sample_issue "github" "42" "new title")) "github" "42"
      = some (sample_issue "github" "42" "new title") := by
  have h := C7_add_issue_replaces [sample_issue "github" "42" "old title"]
    (sample_issue "github" "42" "new title") (by simp [key_unique])
  exact ⟨h.1, (h.2 (sample_issue "github" "42" "old title") (by decide)).1,
    (h.2 (sample_issue "github" "42" "old title") (by decide)).2⟩

end RiskAssessor

namespace RiskAssessor.Contracts

/-- `RiskFactor` dataclass from `core/contracts.py`. -/
structure RiskFactor where
  category : String
  factor_name : String
  impact_weight : ℚ
  observed_value : String
  assessment : String
deriving DecidableEq, Repr

/-- `RiskSummary` dataclass. -/
structure RiskSummary where
  risk_score : ℚ
  risk_level : String
  confidence : ℚ
  overall_assessment : String
deriving DecidableEq, Repr

/-- `HistoricalContext` dataclass. -/
structure HistoricalContext where
  previous_similar_changes : ℕ
  previous_incidents_in_region : ℕ
  last_incident_cause : Option String
  time_since_last_outage_days : Option ℕ
deriving DecidableEq, Repr

/-- `ModelDetails` dataclass. -/
structure ModelDetails where
  model_version : String
  model_type : String
  trained_on_releases : Option ℕ
  last_updated : Option String
deriving DecidableEq, Repr

/-- `RiskContract` dataclass. -/
structure RiskContract where
  id : String
  timestamp : String
  repository : String
  branch : String
  deployment_region : String
  risk_summary : RiskSummary
  factors : List RiskFactor
  recommendations : List String
  historical_context : HistoricalContext
  model_details : ModelDetails
  text_summary : String
deriving DecidableEq, Repr

/-- The dictionary image of a `RiskFactor` under `dataclasses.asdict`. -/
structure RiskFactorDict where
  category : String
  factor_name : String
  impact_weight : ℚ
  observed_value : String
  assessment : String
deriving DecidableEq, Repr

/-- The dictionary image of a `RiskSummary` under `dataclasses.asdict`. -/
structure RiskSummaryDict where
  risk_score : ℚ
  risk_level : String
  confidence : ℚ
  overall_assessment : String
deriving DecidableEq, Repr

/-- The dictionary image of a `HistoricalContext` under `dataclasses.asdict`. -/
structure HistoricalContextDict where
  previous_similar_changes : ℕ
  previous_incidents_in_region : ℕ
  last_incident_cause : Option String
  time_since_last_outage_days : Option ℕ
deriving DecidableEq, Repr

/-- The dictionary image of a `ModelDetails` under `dataclasses.asdict`. -/
structure ModelDetailsDict where
  model_version : String
  model_type : String
  trained_on_releases : Option ℕ
  last_updated : Option String
deriving DecidableEq, Repr

/-- The dictionary produced by `RiskContract.to_dict`: `asdict` recursively
replaces each nested dataclass by its dictionary image. -/
structure RiskContractDict where
  id : String
  timestamp : String
  repository : String
  branch : String
  deployment_region : String
  risk_summary : RiskSummaryDict
  factors : List RiskFactorDict
  recommendations : List String
  historical_context : HistoricalContextDict
  model_details : ModelDetailsDict
  text_summary : String
deriving DecidableEq, Repr

/-- `asdict` on one factor. -/
def RiskFactor.to_dict (f : RiskFactor) : RiskFactorDict :=
  { category := f.category, factor_name := f.factor_name,
    impact_weight := f.impact_weight, observed_value := f.observed_value,
    assessment := f.assessment }

/-- `RiskFactor(**f)` on one factor dictionary. -/
def RiskFactor.from_dict (f : RiskFactorDict) : RiskFactor :=
  { category := f.category, factor_name := f.factor_name,
    impact_weight := f.impact_weight, observed_value := f.observed_value,
    assessment := f.assessment }

/-- `RiskContract.to_dict` (`dataclasses.asdict`). -/
def RiskContract.to_dict (c : RiskContract) : RiskContractDict :=
  { id := c.id, timestamp := c.timestamp, repository := c.repository,
    branch := c.branch, deployment_region := c.deployment_region,
    risk_summary :=
      { risk_score := c.risk_summary.risk_score,
        risk_level := c.risk_summary.risk_level,
        confidence := c.risk_summary.confidence,
        overall_assessment := c.risk_summary.overall_assessment },
    factors := c.factors.map RiskFactor.to_dict,
    recommendations := c.recommendations,
    historical_context :=
      { previous_similar_changes := c.historical_context.previous_similar_changes,
        previous_incidents_in_region :=
          c.historical_context.previous_incidents_in_region,
        last_incident_cause := c.historical_context.last_incident_cause,
        time_since_last_outage_days :=
          c.historical_context.time_since_last_outage_days },
    model_details :=
      { model_version := c.model_details.model_version,
        model_type := c.model_details.model_type,
        trained_on_releases := c.model_details.trained_on_releases,
        last_updated := c.model_details.last_updated },
    text_summary := c.text_summary }

/-- `RiskContract.from_dict`. -/
def RiskContract.from_dict (data : RiskContractDict) : RiskContract :=
  { id := data.id, timestamp := data.timestamp, repository := data.repository,
    branch := data.branch, deployment_region := data.deployment_region,
    risk_summary :=
      { risk_score := data.risk_summary.risk_score,
        risk_level := data.risk_summary.risk_level,
        confidence := data.risk_summary.confidence,
        overall_assessment := data.risk_summary.overall_assessment },
    factors := data.factors.map RiskFactor.from_dict,
    recommendations := data.recommendations,
    historical_context :=
      { previous_similar_changes :=
          data.historical_context.previous_similar_changes,
        previous_incidents_in_region :=
          data.historical_context.previous_incidents_in_region,
        last_incident_cause := data.historical_context.last_incident_cause,
        time_since_last_outage_days :=
          data.historical_context.time_since_last_outage_days },
    model_details :=
      { model_version := data.model_details.model_version,
        model_type := data.model_details.model_type,
        trained_on_releases := data.model_details.trained_on_releases,
        last_updated := data.model_details.last_updated },
    text_summary := data.text_summary }

end RiskAssessor.Contracts

namespace RiskAssessor

open Contracts

/-- C8: `from_dict` after `to_dict` is the identity on risk contracts, field
for field, including the nested summary, factors, recommendations,
historical context and model details. -/
theorem C8_contract_round_trip :
    ∀ c : RiskContract, RiskContract.from_dict (RiskContract.to_dict c) = c := by
  intro c
  obtain ⟨cid, ts, repo, br, region, ⟨s1, s2, s3, s4⟩, factors, recs,
    ⟨h1, h2, h3, h4⟩, ⟨m1, m2, m3, m4⟩, txt⟩ := c
  simp only [RiskContract.to_dict, RiskContract.from_dict, List.map_map]
  congr 1
  have hcomp : ∀ f, (RiskFactor.from_dict ∘ RiskFactor.to_dict) f = f := by
    intro f
    obtain ⟨f1, f2, f3, f4, f5⟩ := f
    rfl
  exact List.map_congr_left (fun f _ => hcomp f) |>.trans (List.map_id factors)

end RiskAssessor

namespace RiskAssessor.RiskEngine

open RiskAssessor.ComplexityAnalyzer RiskAssessor.IssueCatalog
open RiskAssessor.FeedbackCatalog RiskAssessor.Contracts

/-- `RiskThresholds` from `utils/config.py` (defaults 0.3/0.6/0.8 and
weights 0.3/0.3/0.4). -/
structure RiskThresholds where
  low_threshold : ℚ
  medium_threshold : ℚ
  high_threshold : ℚ
  complexity_weight : ℚ
  history_weight : ℚ
  llm_weight : ℚ
deriving DecidableEq, Repr

/-- The dataclass defaults of `RiskThresholds`. -/
def default_thresholds : RiskThresholds :=
  { low_threshold := 3/10, medium_threshold := 3/5, high_threshold := 4/5,
    complexity_weight := 3/10, history_weight := 3/10, llm_weight := 2/5 }

/-- Floor of a rational (`q.num.fdiv q.den` with positive denominator). -/
def rat_floor (q : ℚ) : ℤ :=
  q.num.fdiv (q.den : ℤ)

/-- Python `round` to the nearest integer, ties to even. -/
def round_half_even (x : ℚ) : ℤ :=
  let f := rat_floor x
  let r := x - (f : ℚ)
  if r < 1/2 then f
  else if (1:ℚ)/2 < r then f + 1
  else if f % 2 = 0 then f else f + 1

/-- Python `round(x, 2)`. -/
def round2 (x : ℚ) : ℚ :=
  ((round_half_even (x * 100) : ℤ) : ℚ) / 100

/-- `_assess_change_volume`. -/
def assess_change_volume (total_changes files_changed : ℕ) : String :=
  if total_changes > 1000 ∨ files_changed > 15 then
    "Large changeset; above 90th percentile for this repository"
  else if total_changes > 500 ∨ files_changed > 8 then
    "Moderate changeset; within normal range but requires review"
  else
    "Small changeset; within typical change size"

/-- `_assess_commit_distribution`. -/
def assess_commit_distribution (commits total_changes : ℕ) : String :=
  if commits = 0 then "No commit data available"
  else
    let changes_per_commit : ℚ := (total_changes : ℚ) / (commits : ℚ)
    if changes_per_commit > 200 then "Few large commits; may indicate bulk changes"
    else if changes_per_commit < 10 then
      "Many small commits; good incremental development"
    else "Normal commit distribution"

/-- `_generate_risk_factors` (`core/risk_engine.py`, lines 649-734).  The
`complexity_analysis.get('commits', 1)` read always finds the `commits` key
that `analyze_changes` stores, so it is the commit count of the analysis. -/
def generate_risk_factors (cfg : RiskThresholds)
    (complexity_analysis : ComplexityAnalysis)
    (related_issues : List CatalogedIssue)
    (feedback_entries : List FeedbackEntry)
    (files_changed : List String) : List RiskFactor :=
  let factors : List RiskFactor := []
  let total_changes := complexity_analysis.total_changes
  let num_files := complexity_analysis.files_changed
  let code_weight := cfg.complexity_weight * (3/5)
  let factors := factors ++ [{
    category := "code",
    factor_name := "Change Volume",
    impact_weight := round2 code_weight,
    observed_value := toString total_changes ++ " lines changed across "
      ++ toString num_files ++ " files",
    assessment := assess_change_volume total_changes num_files }]
  let critical_files := complexity_analysis.critical_files
  let factors := if critical_files ≠ [] then
      factors ++ [{
        category := "configuration",
        factor_name := "Critical Files Modified",
        impact_weight := round2 (cfg.complexity_weight * (2/5)),
        observed_value := toString critical_files.length
          ++ " critical files affected",
        assessment := "Modified files include: "
          ++ String.intercalate ", " (critical_files.take 3) }]
    else factors
  let related_feedback := search_by_files feedback_entries files_changed
  let factors := if related_feedback ≠ [] then
      let feedback_weight := cfg.history_weight * (3/5)
      let critical_count :=
        (related_feedback.filter (fun fb => lower fb.severity = "critical")).length
      let high_count :=
        (related_feedback.filter (fun fb => lower fb.severity = "high")).length
      let assessment_parts :=
        (if critical_count > 0 then
          [toString critical_count ++ " critical incident(s)"] else [])
        ++ (if high_count > 0 then
          [toString high_count ++ " high-severity incident(s)"] else [])
      let parts_text := if assessment_parts ≠ [] then
          String.intercalate ", " assessment_parts
        else toString related_feedback.length ++ " incident(s)"
      factors ++ [{
        category := "operational",
        factor_name := "Incident History (Feedback)",
        impact_weight := round2 feedback_weight,
        observed_value := toString related_feedback.length
          ++ " related incidents in feedback",
        assessment := "Similar changes caused " ++ parts_text ++ " previously" }]
    else factors
  let factors := if related_issues ≠ [] then
      let history_weight := cfg.history_weight * (2/5)
      factors ++ [{
        category := "operational",
        factor_name := "Historical Issues",
        impact_weight := round2 history_weight,
        observed_value := toString related_issues.length ++ " related issues found",
        assessment := "Similar changes have caused "
          ++ toString related_issues.length ++ " issues in the past" }]
    else factors
  let commits := complexity_analysis.commits
  let factors := if commits > 0 then
      let ownership_weight := cfg.llm_weight * (3/10)
      factors ++ [{
        category := "ownership",
        factor_name := "Change Distribution",
        impact_weight := round2 ownership_weight,
        observed_value := toString commits ++ " commits",
        assessment := assess_commit_distribution commits total_changes }]
    else factors
  factors

end RiskAssessor.RiskEngine

namespace RiskAssessor

open ComplexityAnalyzer IssueCatalog FeedbackCatalog Contracts RiskEngine

/-- C3 (amended): the factors list consists exactly of Change Volume (always,
weight `complexity_weight·0.6` rounded to 2 decimals), Critical Files
Modified iff critical files are present (weight `complexity_weight·0.4`),
Incident History iff feedback entries match the changed files (weight
`history_weight·0.6`), Historical Issues iff catalog issues matched (weight
`history_weight·0.4`), and Change Distribution iff the commit count is
positive (weight `llm_weight·0.3`); no Regional Feature Availability factor
is ever produced. -/
theorem C3_risk_factor_composition :
    ∀ (cfg : RiskThresholds) (ca : ComplexityAnalysis)
      (issues : List CatalogedIssue) (fb : List FeedbackEntry)
      (files : List String),
      (generate_risk_factors cfg ca issues fb files).map
          (fun f => (f.factor_name, f.impact_weight)) =
        [("Change Volume", round2 (cfg.complexity_weight * (3/5)))]
        ++ (if ca.critical_files ≠ [] then
            [("Critical Files Modified", round2 (cfg.complexity_weight * (2/5)))]
          else [])
        ++ (if search_by_files fb files ≠ [] then
            [("Incident History (Feedback)", round2 (cfg.history_weight * (3/5)))]
          else [])
        ++ (if issues ≠ [] then
            [("Historical Issues", round2 (cfg.history_weight * (2/5)))]
          else [])
        ++ (if ca.commits > 0 then
            [("Change Distribution", round2 (cfg.llm_weight * (3/10)))]
          else []) ∧
      "Regional Feature Availability" ∉
        (generate_risk_factors cfg ca issues fb files).map
          (fun f => f.factor_name) := by
  intro cfg ca issues fb files
  have h1 : (generate_risk_factors cfg ca issues fb files).map
      (fun f => (f.factor_name, f.impact_weight)) =
      [("Change Volume", round2 (cfg.complexity_weight * (3/5)))]
      ++ (if ca.critical_files ≠ [] then
          [("Critical Files Modified", round2 (cfg.complexity_weight * (2/5)))]
        else [])
      ++ (if search_by_files fb files ≠ [] then
          [("Incident History (Feedback)", round2 (cfg.history_weight * (3/5)))]
        else [])
      ++ (if issues ≠ [] then
          [("Historical Issues", round2 (cfg.history_weight * (2/5)))]
        else [])
      ++ (if ca.commits > 0 then
          [("Change Distribution", round2 (cfg.llm_weight * (3/10)))]
        else []) := by
    simp only [generate_risk_factors]
    split_ifs <;> simp
  refine ⟨h1, ?_⟩
  have h2 : (generate_risk_factors cfg ca issues fb files).map
      (fun f => f.factor_name) =
      ((generate_risk_factors cfg ca issues fb files).map
        (fun f => (f.factor_name, f.impact_weight))).map Prod.fst := by
    rw [List.map_map]
    rfl
  rw [h2, h1]
  simp only [List.map_append, apply_ite (List.map (Prod.fst :
    String × ℚ → String)), List.map_cons, List.map_nil]
  split_ifs <;> decide

/-- C3 as stated is false: with zero commits no Change Distribution factor is
emitted (the claim says it is always present), and no input ever yields a
Regional Feature Availability factor. -/
theorem C3_counterexample :
    (generate_risk_factors default_thresholds (analyze_changes ["a.py"] 10 5 0)
        [] [] ["a.py"]).map (fun f => f.factor_name) = ["Change Volume"] ∧
    "Change Distribution" ∉
      (generate_risk_factors default_thresholds (analyze_changes ["a.py"] 10 5 0)
        [] [] ["a.py"]).map (fun f => f.factor_name) ∧
    "Regional Feature Availability" ∉
      (generate_risk_factors default_thresholds (analyze_changes ["a.py"] 10 5 0)
        [] [] ["a.py"]).map (fun f => f.factor_name) := by
  refine ⟨?_, ?_, ?_⟩ <;> decide

end RiskAssessor

namespace RiskAssessor.RiskEngine

open RiskAssessor.ComplexityAnalyzer RiskAssessor.IssueCatalog

/-- The recommendation strings of `_generate_recommendations`. -/
def canary_rec : String := "Perform a canary deployment before full rollout"

/-- Rollback-hooks recommendation. -/
def rollback_rec : String := "Enable feature flag rollback hooks"

/-- Extended-smoke-tests recommendation. -/
def smoke_rec : String :=
  "Run extended smoke tests on configuration initialization paths"

/-- Validation-coverage recommendation. -/
def validation_rec : String :=
  "Ensure validation tests cover all modified configuration files"

/-- Review-history recommendation. -/
def review_history_rec : String :=
  "Review related historical issues to avoid known pitfalls"

/-- Incremental-deployment recommendation. -/
def incremental_rec : String :=
  "Consider breaking this change into smaller, incremental deployments"

/-- `dict.fromkeys` deduplication: keep the first occurrence of each string,
in order; `seen` accumulates the keys already kept. -/
def dedup_aux : List String → List String → List String
  | [], _ => []
  | x :: xs, seen =>
      if x ∈ seen then dedup_aux xs seen else x :: dedup_aux xs (x :: seen)

/-- `list(dict.fromkeys(l))`. -/
def dedup (l : List String) : List String :=
  dedup_aux l []

/-- `dedup_aux` produces a duplicate-free list avoiding `seen`. -/
lemma dedup_aux_nodup :
    ∀ (l seen : List String),
      (dedup_aux l seen).Nodup ∧ ∀ x ∈ dedup_aux l seen, x ∉ seen := by
  intro l
  induction l with
  | nil => intro seen; simp [dedup_aux]
  | cons x xs ih =>
      intro seen
      by_cases hx : x ∈ seen
      · rw [dedup_aux, if_pos hx]
        exact ih seen
      · rw [dedup_aux, if_neg hx]
        obtain ⟨hnd, hav⟩ := ih (x :: seen)
        refine ⟨List.nodup_cons.mpr ⟨?_, hnd⟩, ?_⟩
        · intro hmem
          exact hav x hmem (by simp)
        · intro y hy
          rcases List.mem_cons.mp hy with h1 | h1
          · subst h1; exact hx
          · intro hys
            exact hav y h1 (by simp [hys])

/-- `dedup` produces a duplicate-free list. -/
lemma dedup_nodup (l : List String) : (dedup l).Nodup :=
  (dedup_aux_nodup l []).1

/-- `_generate_recommendations` (`core/risk_engine.py`, lines 758-788). -/
def generate_recommendations (risk_level : String)
    (complexity_analysis : ComplexityAnalysis)
    (llm_recommendations : List String)
    (related_issues : List CatalogedIssue) : List String :=
  let recommendations : List String := []
  let recommendations := if llm_recommendations ≠ [] then
      recommendations ++ llm_recommendations.take 3 else recommendations
  let recommendations := if risk_level = "HIGH" then
      recommendations ++ [canary_rec, rollback_rec] else recommendations
  let recommendations := if complexity_analysis.critical_files ≠ [] then
      recommendations ++ [smoke_rec, validation_rec] else recommendations
  let recommendations := if related_issues ≠ [] then
      recommendations ++ [review_history_rec] else recommendations
  let recommendations := if complexity_analysis.total_changes > 500 then
      recommendations ++ [incremental_rec] else recommendations
  (dedup recommendations).take 6

end RiskAssessor.RiskEngine

namespace RiskAssessor

open ComplexityAnalyzer IssueCatalog RiskEngine

/-- C9 (amended): the recommendations list is duplicate-free with at most 6
entries; it is the first-occurrence deduplication, truncated to 6, of up to
three advisory recommendations followed by the rule-based candidates —
canary deployment and rollback hooks when the tier is HIGH, extended smoke
tests *and* a validation-coverage recommendation when critical files were
touched, a review of related historical issues when catalog issues matched,
and an incremental-deployment suggestion when total changes exceed 500;
with no advisory recommendations it is exactly the rule-based list. -/
theorem C9_recommendations :
    ∀ (risk_level : String) (ca : ComplexityAnalysis) (llm_recs : List String)
      (issues : List CatalogedIssue),
      (generate_recommendations risk_level ca llm_recs issues).Nodup ∧
      (generate_recommendations risk_level ca llm_recs issues).length ≤ 6 ∧
      generate_recommendations risk_level ca llm_recs issues =
        (dedup (llm_recs.take 3
          ++ (if risk_level = "HIGH" then [canary_rec, rollback_rec] else [])
          ++ (if ca.critical_files ≠ [] then [smoke_rec, validation_rec] else [])
          ++ (if issues ≠ [] then [review_history_rec] else [])
          ++ (if ca.total_changes > 500 then [incremental_rec] else []))).take 6 ∧
      (llm_recs = [] →
        generate_recommendations risk_level ca llm_recs issues =
          (if risk_level = "HIGH" then [canary_rec, rollback_rec] else [])
          ++ (if ca.critical_files ≠ [] then [smoke_rec, validation_rec] else [])
          ++ (if issues ≠ [] then [review_history_rec] else [])
          ++ (if ca.total_changes > 500 then [incremental_rec] else [])) := by
  intro risk_level ca llm_recs issues
  have hshape : generate_recommendations risk_level ca llm_recs issues =
      (dedup (llm_recs.take 3
        ++ (if risk_level = "HIGH" then [canary_rec, rollback_rec] else [])
        ++ (if ca.critical_files ≠ [] then [smoke_rec, validation_rec] else [])
        ++ (if issues ≠ [] then [review_history_rec] else [])
        ++ (if ca.total_changes > 500 then [incremental_rec] else []))).take 6 := by
    simp only [generate_recommendations]
    split_ifs <;> simp_all [List.append_assoc]
  refine ⟨?_, ?_, hshape, ?_⟩
  · rw [hshape]
    exact (dedup_nodup _).sublist (List.take_sublist _ _)
  · rw [hshape]
    exact List.length_take_le _ _
  · intro hllm
    subst hllm
    rw [hshape]
    simp only [List.take_nil, List.nil_append]
    split_ifs <;> decide

/-- Witness for C9: with no advisory output, a HIGH tier, critical files,
matched issues and more than 500 changed lines, the recommendations are
exactly the six rule-based strings. -/
theorem C9_recommendations_witness :
    generate_recommendations "HIGH" (analyze_changes ["config.py"] 600 0 2) []
        [sample_issue "github" "1" "t"] =
      [canary_rec, rollback_rec, smoke_rec, validation_rec,
        review_history_rec, incremental_rec] :=
  ((C9_recommendations "HIGH" (analyze_changes ["config.py"] 600 0 2) []
    [sample_issue "github" "1" "t"]).2.2.2 rfl).trans (by decide)

/-- C9 as stated is false: touching critical files adds *two* rule-based
recommendations — the claim's enumeration omits the validation-coverage
one. -/
theorem C9_counterexample :
    generate_recommendations "LOW" (analyze_changes ["config.py"] 10 5 1) [] [] =
      [smoke_rec, validation_rec] ∧
    generate_recommendations "LOW" (analyze_changes ["config.py"] 10 5 1) [] [] ≠
      [smoke_rec] := by
  refine ⟨?_, ?_⟩ <;> decide

end RiskAssessor
